import Mathlib

/-!
Verification of the interactive control-point / corner-selection state machine
of pyorc (`src/pyorc/cli/cli_elements.py`, the `BaseSelect` / `AoiSelect` /
`GcpSelect` family), as a shallow embedding.

Modelling choices:
* Pointer coordinates (`event.xdata` / `event.ydata`) are rationals; a click
  outside any axes has `xdata = none`, mirroring matplotlib.
* `int(np.round(x))` is `np_round`: round half to even, as NumPy does.
* The session state `SelState` carries exactly the mutable attributes of the
  Python objects that the handlers read or write: `src`, `dst`,
  `required_clicks`, the annotation list `pts_t`, the marker-line data `p`,
  the press/move flags, axes visibility, the Done button state, the
  bounding-box patches of `AoiSelect` and the selected-destination marker
  line of `GcpSelect`.  Pure rendering calls (`canvas.draw`, `toolbar.home`,
  `plt.sca`, event disconnection) have no modelled effect.
* `camera_config` is an external collaborator (not part of the two source
  files); it is modelled from the spec as an abstract record of functions.
-/

/-- NumPy rounding `int(np.round (q))`: round half to even. -/
def np_round (q : ℚ) : ℤ :=
  let f := ⌊q⌋
  if q - (f : ℚ) < 1/2 then f
  else if (1 : ℚ)/2 < q - (f : ℚ) then f + 1
  else if f % 2 = 0 then f else f + 1

/-- The fixed corner labels of `cli_elements.py` (`corner_labels`). -/
def corner_labels : List String :=
  ["upstream-left", "downstream-left", "downstream-right", "upstream-right"]

/-- Mouse buttons of `matplotlib.backend_bases.MouseButton` that the code
distinguishes (`LEFT`, `RIGHT`; everything else is handled by neither
branch of `on_click`). -/
inductive MouseBtn where
  | left
  | right
  | middle
deriving DecidableEq, Repr

/-- A matplotlib mouse event as seen by the handlers:
`button`, whether `event.inaxes == self.ax`, and `xdata`/`ydata`
(`none` when the pointer is outside the axes). -/
structure MouseEvent where
  button : MouseBtn
  inaxes_ax : Bool
  xdata : Option (ℚ × ℚ)
deriving DecidableEq, Repr

/-- One annotation created by `ax.annotate(...)` and stored in `pts_t`:
its text label and anchor position. -/
structure Marker where
  label : String
  xy : ℚ × ℚ
deriving DecidableEq, Repr

/-- The mutable state of a `BaseSelect`-family object. -/
structure SelState where
  /-- `self.src`: collected `[column, row]` integer pixel points. -/
  src : List (ℤ × ℤ)
  /-- `self.dst`: the caller-supplied destination points (2 or 3 coords). -/
  dst : List (List ℚ)
  /-- `self.required_clicks` (set by the child class constructor). -/
  required_clicks : ℕ
  /-- `self.pts_t`: annotations, one per collected source point. -/
  pts_t : List Marker
  /-- the data of the marker line `self.p` (`self.p.set_data(...)`). -/
  p_data : List (ℤ × ℤ)
  /-- `self.press`. -/
  press : Bool
  /-- `self.move`. -/
  move : Bool
  /-- `self.ax.get_visible()`. -/
  ax_visible : Bool
  /-- `self.ax_geo.get_visible()`. -/
  ax_geo_visible : Bool
  /-- `self.button3.get_active()` (the Done button). -/
  button3_active : Bool
  /-- the Done button label color. -/
  button3_color : String
  /-- vertices of the `AoiSelect` camera-view bounding-box patch `self.p_bbox`. -/
  p_bbox : List (ℚ × ℚ)
  /-- vertices of the `AoiSelect` geo-view bounding-box patch `self.p_bbox_geo`. -/
  p_bbox_geo : List (ℚ × ℚ)
  /-- data of the `GcpSelect` selected-destination line `self.p_geo_selected`
  (first two coordinates of each selected destination point). -/
  p_geo_selected : List (List ℚ)
deriving DecidableEq, Repr

/-- Modelled from the spec: the `camera_config` object handed to `AoiSelect`
is an external collaborator exposing `set_bbox_from_corners(points)` and
`get_bbox(camera) -> polygon`, plus an optional `crs` attribute; reprojection
to EPSG 4326 is done by `helpers.xyz_transform`.  It is modelled as pure
functions of the stored corners. -/
structure CameraConfig where
  /-- `hasattr(self.camera_config, "crs")`. -/
  has_crs : Bool
  /-- corners stored by `set_bbox_from_corners` ↦
  `get_bbox(camera=True).exterior.xy`. -/
  bbox_cam : List (ℤ × ℤ) → List (ℚ × ℚ)
  /-- corners stored by `set_bbox_from_corners` ↦ `get_bbox().exterior.xy`. -/
  bbox_geo : List (ℤ × ℤ) → List (ℚ × ℚ)
  /-- `helpers.xyz_transform(..., crs_from=camera_config.crs, crs_to=4326)`. -/
  xyz_transform : List (ℚ × ℚ) → List (ℚ × ℚ)

/-- `BaseSelect.on_press`: record the press, reset the move flag. -/
def BaseSelect.on_press (s : SelState) (_e : MouseEvent) : SelState :=
  { s with press := true, move := false }

/-- `BaseSelect.on_move`: while pressed, any motion marks the gesture a drag. -/
def BaseSelect.on_move (s : SelState) (_e : MouseEvent) : SelState :=
  if s.press = true then { s with move := true } else s

/-- `BaseSelect.on_left_click`: if `event.xdata is not None`, append the
rounded pixel to `src`, refresh the marker line, and annotate with the new
sequence index `len(self.src)`. -/
def BaseSelect.on_left_click (s : SelState) (e : MouseEvent) : SelState :=
  match e.xdata with
  | Option.none => s
  | Option.some xy =>
    let src2 := s.src ++ [(np_round xy.1, np_round xy.2)]
    { s with
        src := src2
        p_data := src2
        pts_t := s.pts_t ++ [{ label := toString src2.length, xy := xy }] }

/-- `BaseSelect.on_right_click`: drop the last annotation if any, then drop
the last `src` entry if any and refresh the marker line. -/
def BaseSelect.on_right_click (s : SelState) : SelState :=
  let s1 := if s.pts_t.length > 0 then { s with pts_t := s.pts_t.dropLast } else s
  if s1.src.length > 0 then
    let src2 := s1.src.dropLast
    { s1 with src := src2, p_data := if src2.length > 0 then src2 else [] }
  else s1

/-- The button dispatch of `BaseSelect.on_click`: right clicks go to
`on_right_click`; left clicks go to (the possibly overridden)
`on_left_click`, gated by `len(self.src) < self.required_clicks`;
other buttons do nothing. -/
def BaseSelect.click_dispatch (leftClick : SelState → MouseEvent → SelState)
    (s : SelState) (e : MouseEvent) : SelState :=
  if e.button = MouseBtn.right then BaseSelect.on_right_click s
  else if e.button = MouseBtn.left then
    (if s.src.length < s.required_clicks then leftClick s e else s)
  else s

/-- The tail of `BaseSelect.on_click`: enable the Done button iff
`len(self.src) == self.required_clicks`, otherwise disable and gray it. -/
def BaseSelect.update_done_button (s2 : SelState) : SelState :=
  if s2.src.length = s2.required_clicks then
    { s2 with button3_active := true, button3_color := "k" }
  else
    { s2 with button3_active := false, button3_color := "grey" }

/-- `BaseSelect.on_click`, parameterised over the (possibly overridden)
`on_left_click` handler: only if the image axes is visible and the event is
inside it, dispatch on the button and refresh the Done button. -/
def BaseSelect.on_click (leftClick : SelState → MouseEvent → SelState)
    (s : SelState) (e : MouseEvent) : SelState :=
  if s.ax_visible = true ∧ e.inaxes_ax = true then
    BaseSelect.update_done_button (BaseSelect.click_dispatch leftClick s e)
  else s

/-- `BaseSelect.on_release`: a press not followed by motion is a click;
afterwards both flags are reset. -/
def BaseSelect.on_release (click : SelState → MouseEvent → SelState)
    (s : SelState) (e : MouseEvent) : SelState :=
  let s2 := if s.press = true ∧ s.move = false then click s e else s
  { s2 with press := false, move := false }

/-- `BaseSelect.switch_to_ax`: show the camera view, hide the geo view. -/
def BaseSelect.switch_to_ax (s : SelState) : SelState :=
  { s with ax_visible := true, ax_geo_visible := false }

/-- `BaseSelect.switch_to_ax_geo`: hide the camera view, show the geo view. -/
def BaseSelect.switch_to_ax_geo (s : SelState) : SelState :=
  { s with ax_visible := false, ax_geo_visible := true }

/-- The `click.UsageError` raised by `BaseSelect.on_close` when the
selection is incomplete. -/
structure CloseError where
  required : ℕ
  actual : ℕ
  message : String
deriving DecidableEq, Repr

/-- The f-string of `BaseSelect.on_close`. -/
def usage_error_message (required actual : ℕ) : String :=
  "Aborting because you have not supplied all " ++ toString required ++
    " ground control points. Only " ++ toString actual ++ " points supplied"

/-- `BaseSelect.on_close`: check `len(self.src) == self.required_clicks`;
raise a `click.UsageError` naming both counts otherwise.  On success the
caller reads the completed `self.src`, so success carries it. -/
def BaseSelect.on_close (s : SelState) : Except CloseError (List (ℤ × ℤ)) :=
  if s.src.length = s.required_clicks then Except.ok s.src
  else
    Except.error
      { required := s.required_clicks
        actual := s.src.length
        message := usage_error_message s.required_clicks s.src.length }

/-- The state built by `BaseSelect.__init__` and finished by the child class
(which supplies `required_clicks` and the initially empty marker line):
no points, no annotations, camera view visible, Done button inactive and
gray, empty bounding-box patches, empty selected-destination line. -/
def BaseSelect.init (dst : List (List ℚ)) (required : ℕ) : SelState :=
  { src := []
    dst := dst
    required_clicks := required
    pts_t := []
    p_data := []
    press := false
    move := false
    ax_visible := true
    ax_geo_visible := false
    button3_active := false
    button3_color := "gray"
    p_bbox := []
    p_bbox_geo := []
    p_geo_selected := [] }

/-- `AoiSelect.on_left_click`: like the base handler but the annotation text
is `corner_labels[len(self.src) - 1]`, and when the click completes the
required four corners the bounding box is derived via
`camera_config.set_bbox_from_corners(self.src)` / `get_bbox` and set on both
views (reprojected to EPSG 4326 for the geo view when a CRS is present). -/
def AoiSelect.on_left_click (cfg : CameraConfig) (s : SelState)
    (e : MouseEvent) : SelState :=
  match e.xdata with
  | Option.none => s
  | Option.some xy =>
    let src2 := s.src ++ [(np_round xy.1, np_round xy.2)]
    let s1 :=
      { s with
          src := src2
          p_data := src2
          pts_t := s.pts_t ++
            [{ label := corner_labels.getD (src2.length - 1) "", xy := xy }] }
    if s1.src.length = s1.required_clicks then
      let bbox_cam := cfg.bbox_cam s1.src
      let bbox_geo :=
        if cfg.has_crs = true then cfg.xyz_transform (cfg.bbox_geo s1.src)
        else cfg.bbox_geo s1.src
      { s1 with p_bbox := bbox_cam, p_bbox_geo := bbox_geo }
    else s1

/-- `AoiSelect.on_click`: the base handler, then clear both bounding-box
patches whenever `len(self.src) != self.required_clicks`. -/
def AoiSelect.on_click (cfg : CameraConfig) (s : SelState)
    (e : MouseEvent) : SelState :=
  let s2 := BaseSelect.on_click (AoiSelect.on_left_click cfg) s e
  if ¬(s2.src.length = s2.required_clicks) then
    { s2 with p_bbox := [], p_bbox_geo := [] }
  else s2

/-- `AoiSelect.__init__`: a base state with `required_clicks = 4`. -/
def AoiSelect.init (dst : List (List ℚ)) : SelState :=
  BaseSelect.init dst 4

/-- `GcpSelect.on_click`: the base handler, then show on the geo view the
first two coordinates of the destination points paired with the points
collected so far (`dst_sel = self.dst[:len(self.src)]`). -/
def GcpSelect.on_click (s : SelState) (e : MouseEvent) : SelState :=
  let s2 := BaseSelect.on_click BaseSelect.on_left_click s e
  let dst_sel := s2.dst.take s2.src.length
  if dst_sel.length > 0 then
    { s2 with p_geo_selected := dst_sel.map (fun p => p.take 2) }
  else
    { s2 with p_geo_selected := [] }

/-- `GcpSelect.__init__`: a base state with `required_clicks = len(self.dst)`. -/
def GcpSelect.init (dst : List (List ℚ)) : SelState :=
  BaseSelect.init dst dst.length

/-- Which concrete selector class is running the session (the `AoiSelect`
variant carries its `camera_config` collaborator). -/
inductive Variant where
  | gcp
  | aoi (cfg : CameraConfig)

/-- The `on_click` method dispatched by the running variant. -/
def Variant.click : Variant → SelState → MouseEvent → SelState
  | Variant.gcp => GcpSelect.on_click
  | Variant.aoi cfg => AoiSelect.on_click cfg

/-- One GUI event delivered to the session: the connected mpl callbacks
(`button_press_event`, `motion_notify_event`, `button_release_event`) and
the two view-switch buttons. -/
inductive SessionEvent where
  | press (e : MouseEvent)
  | move (e : MouseEvent)
  | release (e : MouseEvent)
  | switch_cam
  | switch_geo

/-- Deliver one event to the session. -/
def Variant.step (v : Variant) (s : SelState) : SessionEvent → SelState
  | SessionEvent.press e => BaseSelect.on_press s e
  | SessionEvent.move e => BaseSelect.on_move s e
  | SessionEvent.release e => BaseSelect.on_release v.click s e
  | SessionEvent.switch_cam => BaseSelect.switch_to_ax s
  | SessionEvent.switch_geo => BaseSelect.switch_to_ax_geo s

/-- Deliver a sequence of events to the session. -/
def Variant.run (v : Variant) (s : SelState) (evs : List SessionEvent) : SelState :=
  evs.foldl v.step s

/-! ### Frame and invariant helper lemmas -/

lemma on_left_click_some (s : SelState) (b : MouseBtn) (i : Bool) (xy : ℚ × ℚ) :
    BaseSelect.on_left_click s { button := b, inaxes_ax := i, xdata := Option.some xy } =
      { s with
          src := s.src ++ [(np_round xy.1, np_round xy.2)]
          p_data := s.src ++ [(np_round xy.1, np_round xy.2)]
          pts_t := s.pts_t ++
            [{ label := toString (s.src ++ [(np_round xy.1, np_round xy.2)]).length, xy := xy }] } :=
  rfl

lemma on_left_click_required (s : SelState) (e : MouseEvent) :
    (BaseSelect.on_left_click s e).required_clicks = s.required_clicks := by
  cases h : e.xdata <;> simp [BaseSelect.on_left_click, h]

lemma on_left_click_button3 (s : SelState) (e : MouseEvent) :
    (BaseSelect.on_left_click s e).button3_active = s.button3_active := by
  cases h : e.xdata <;> simp [BaseSelect.on_left_click, h]

lemma on_left_click_dst (s : SelState) (e : MouseEvent) :
    (BaseSelect.on_left_click s e).dst = s.dst := by
  cases h : e.xdata <;> simp [BaseSelect.on_left_click, h]

lemma on_left_click_src_le (s : SelState) (e : MouseEvent) :
    (BaseSelect.on_left_click s e).src.length ≤ s.src.length + 1 := by
  cases h : e.xdata <;> simp [BaseSelect.on_left_click, h]

lemma on_left_click_lockstep (s : SelState) (e : MouseEvent)
    (h : s.pts_t.length = s.src.length) :
    (BaseSelect.on_left_click s e).pts_t.length = (BaseSelect.on_left_click s e).src.length := by
  cases hx : e.xdata <;> simp [BaseSelect.on_left_click, hx, h]

lemma aoi_left_click_required (cfg : CameraConfig) (s : SelState) (e : MouseEvent) :
    (AoiSelect.on_left_click cfg s e).required_clicks = s.required_clicks := by
  cases h : e.xdata <;>
    simp [AoiSelect.on_left_click, h, apply_ite SelState.required_clicks]

lemma aoi_left_click_button3 (cfg : CameraConfig) (s : SelState) (e : MouseEvent) :
    (AoiSelect.on_left_click cfg s e).button3_active = s.button3_active := by
  cases h : e.xdata <;>
    simp [AoiSelect.on_left_click, h, apply_ite SelState.button3_active]

lemma aoi_left_click_dst (cfg : CameraConfig) (s : SelState) (e : MouseEvent) :
    (AoiSelect.on_left_click cfg s e).dst = s.dst := by
  cases h : e.xdata <;>
    simp [AoiSelect.on_left_click, h, apply_ite SelState.dst]

lemma aoi_left_click_src_le (cfg : CameraConfig) (s : SelState) (e : MouseEvent) :
    (AoiSelect.on_left_click cfg s e).src.length ≤ s.src.length + 1 := by
  cases h : e.xdata <;>
    simp [AoiSelect.on_left_click, h, apply_ite SelState.src]

lemma aoi_left_click_lockstep (cfg : CameraConfig) (s : SelState) (e : MouseEvent)
    (h : s.pts_t.length = s.src.length) :
    (AoiSelect.on_left_click cfg s e).pts_t.length =
      (AoiSelect.on_left_click cfg s e).src.length := by
  cases hx : e.xdata <;>
    simp [AoiSelect.on_left_click, hx, h, apply_ite SelState.pts_t, apply_ite SelState.src]

lemma on_right_click_required (s : SelState) :
    (BaseSelect.on_right_click s).required_clicks = s.required_clicks := by
  simp [BaseSelect.on_right_click, apply_ite SelState.required_clicks]

lemma on_right_click_button3 (s : SelState) :
    (BaseSelect.on_right_click s).button3_active = s.button3_active := by
  simp [BaseSelect.on_right_click, apply_ite SelState.button3_active]

lemma on_right_click_dst (s : SelState) :
    (BaseSelect.on_right_click s).dst = s.dst := by
  simp [BaseSelect.on_right_click, apply_ite SelState.dst]

lemma on_right_click_src_le (s : SelState) :
    (BaseSelect.on_right_click s).src.length ≤ s.src.length := by
  simp only [BaseSelect.on_right_click]
  split <;> split <;> simp [List.length_dropLast]

lemma on_right_click_lockstep (s : SelState) (h : s.pts_t.length = s.src.length) :
    (BaseSelect.on_right_click s).pts_t.length = (BaseSelect.on_right_click s).src.length := by
  simp only [BaseSelect.on_right_click]
  split <;> split <;> simp_all [List.length_dropLast]

lemma update_done_button_src (s2 : SelState) :
    (BaseSelect.update_done_button s2).src = s2.src := by
  rw [BaseSelect.update_done_button]; split <;> rfl

lemma update_done_button_pts_t (s2 : SelState) :
    (BaseSelect.update_done_button s2).pts_t = s2.pts_t := by
  rw [BaseSelect.update_done_button]; split <;> rfl

lemma update_done_button_required (s2 : SelState) :
    (BaseSelect.update_done_button s2).required_clicks = s2.required_clicks := by
  rw [BaseSelect.update_done_button]; split <;> rfl

lemma update_done_button_dst (s2 : SelState) :
    (BaseSelect.update_done_button s2).dst = s2.dst := by
  rw [BaseSelect.update_done_button]; split <;> rfl

lemma update_done_button_iff (s2 : SelState) :
    (BaseSelect.update_done_button s2).button3_active = true ↔
      (BaseSelect.update_done_button s2).src.length =
        (BaseSelect.update_done_button s2).required_clicks := by
  rw [BaseSelect.update_done_button]
  split <;> simp_all

lemma click_dispatch_required (leftClick : SelState → MouseEvent → SelState)
    (hl : ∀ s e, (leftClick s e).required_clicks = s.required_clicks)
    (s : SelState) (e : MouseEvent) :
    (BaseSelect.click_dispatch leftClick s e).required_clicks = s.required_clicks := by
  rw [BaseSelect.click_dispatch]
  split
  · exact on_right_click_required s
  · split
    · split
      · exact hl s e
      · rfl
    · rfl

lemma click_dispatch_dst (leftClick : SelState → MouseEvent → SelState)
    (hl : ∀ s e, (leftClick s e).dst = s.dst)
    (s : SelState) (e : MouseEvent) :
    (BaseSelect.click_dispatch leftClick s e).dst = s.dst := by
  rw [BaseSelect.click_dispatch]
  split
  · exact on_right_click_dst s
  · split
    · split
      · exact hl s e
      · rfl
    · rfl

lemma click_dispatch_src_cap (leftClick : SelState → MouseEvent → SelState)
    (hl : ∀ s e, (leftClick s e).src.length ≤ s.src.length + 1)
    (s : SelState) (e : MouseEvent) (hs : s.src.length ≤ s.required_clicks) :
    (BaseSelect.click_dispatch leftClick s e).src.length ≤ s.required_clicks := by
  rw [BaseSelect.click_dispatch]
  split
  · exact le_trans (on_right_click_src_le s) hs
  · split
    · split
      · exact le_trans (hl s e) (by omega)
      · exact hs
    · exact hs

lemma click_dispatch_lockstep (leftClick : SelState → MouseEvent → SelState)
    (hl : ∀ s e, s.pts_t.length = s.src.length →
      (leftClick s e).pts_t.length = (leftClick s e).src.length)
    (s : SelState) (e : MouseEvent) (hs : s.pts_t.length = s.src.length) :
    (BaseSelect.click_dispatch leftClick s e).pts_t.length =
      (BaseSelect.click_dispatch leftClick s e).src.length := by
  rw [BaseSelect.click_dispatch]
  split
  · exact on_right_click_lockstep s hs
  · split
    · split
      · exact hl s e hs
      · exact hs
    · exact hs

lemma on_click_required (leftClick : SelState → MouseEvent → SelState)
    (hl : ∀ s e, (leftClick s e).required_clicks = s.required_clicks)
    (s : SelState) (e : MouseEvent) :
    (BaseSelect.on_click leftClick s e).required_clicks = s.required_clicks := by
  rw [BaseSelect.on_click]
  split
  · rw [update_done_button_required, click_dispatch_required leftClick hl]
  · rfl

lemma on_click_dst (leftClick : SelState → MouseEvent → SelState)
    (hl : ∀ s e, (leftClick s e).dst = s.dst)
    (s : SelState) (e : MouseEvent) :
    (BaseSelect.on_click leftClick s e).dst = s.dst := by
  rw [BaseSelect.on_click]
  split
  · rw [update_done_button_dst, click_dispatch_dst leftClick hl]
  · rfl

lemma on_click_src_cap (leftClick : SelState → MouseEvent → SelState)
    (hl : ∀ s e, (leftClick s e).src.length ≤ s.src.length + 1)
    (hlr : ∀ s e, (leftClick s e).required_clicks = s.required_clicks)
    (s : SelState) (e : MouseEvent) (hs : s.src.length ≤ s.required_clicks) :
    (BaseSelect.on_click leftClick s e).src.length ≤
      (BaseSelect.on_click leftClick s e).required_clicks := by
  rw [on_click_required leftClick hlr]
  rw [BaseSelect.on_click]
  split
  · rw [update_done_button_src]
    exact click_dispatch_src_cap leftClick hl s e hs
  · exact hs

lemma on_click_lockstep (leftClick : SelState → MouseEvent → SelState)
    (hl : ∀ s e, s.pts_t.length = s.src.length →
      (leftClick s e).pts_t.length = (leftClick s e).src.length)
    (s : SelState) (e : MouseEvent) (hs : s.pts_t.length = s.src.length) :
    (BaseSelect.on_click leftClick s e).pts_t.length =
      (BaseSelect.on_click leftClick s e).src.length := by
  rw [BaseSelect.on_click]
  split
  · rw [update_done_button_src, update_done_button_pts_t]
    exact click_dispatch_lockstep leftClick hl s e hs
  · exact hs

lemma on_click_button3_iff (leftClick : SelState → MouseEvent → SelState)
    (s : SelState) (e : MouseEvent)
    (hs : s.button3_active = true ↔ s.src.length = s.required_clicks) :
    (BaseSelect.on_click leftClick s e).button3_active = true ↔
      (BaseSelect.on_click leftClick s e).src.length =
        (BaseSelect.on_click leftClick s e).required_clicks := by
  rw [BaseSelect.on_click]
  split
  · exact update_done_button_iff _
  · exact hs

lemma gcp_on_click_src (s : SelState) (e : MouseEvent) :
    (GcpSelect.on_click s e).src = (BaseSelect.on_click BaseSelect.on_left_click s e).src := by
  simp only [GcpSelect.on_click]
  split <;> rfl

lemma gcp_on_click_pts_t (s : SelState) (e : MouseEvent) :
    (GcpSelect.on_click s e).pts_t =
      (BaseSelect.on_click BaseSelect.on_left_click s e).pts_t := by
  simp only [GcpSelect.on_click]
  split <;> rfl

lemma gcp_on_click_required (s : SelState) (e : MouseEvent) :
    (GcpSelect.on_click s e).required_clicks =
      (BaseSelect.on_click BaseSelect.on_left_click s e).required_clicks := by
  simp only [GcpSelect.on_click]
  split <;> rfl

lemma gcp_on_click_dst (s : SelState) (e : MouseEvent) :
    (GcpSelect.on_click s e).dst =
      (BaseSelect.on_click BaseSelect.on_left_click s e).dst := by
  simp only [GcpSelect.on_click]
  split <;> rfl

lemma gcp_on_click_button3 (s : SelState) (e : MouseEvent) :
    (GcpSelect.on_click s e).button3_active =
      (BaseSelect.on_click BaseSelect.on_left_click s e).button3_active := by
  simp only [GcpSelect.on_click]
  split <;> rfl

lemma aoi_on_click_src (cfg : CameraConfig) (s : SelState) (e : MouseEvent) :
    (AoiSelect.on_click cfg s e).src =
      (BaseSelect.on_click (AoiSelect.on_left_click cfg) s e).src := by
  simp only [AoiSelect.on_click]
  split <;> rfl

lemma aoi_on_click_pts_t (cfg : CameraConfig) (s : SelState) (e : MouseEvent) :
    (AoiSelect.on_click cfg s e).pts_t =
      (BaseSelect.on_click (AoiSelect.on_left_click cfg) s e).pts_t := by
  simp only [AoiSelect.on_click]
  split <;> rfl

lemma aoi_on_click_required (cfg : CameraConfig) (s : SelState) (e : MouseEvent) :
    (AoiSelect.on_click cfg s e).required_clicks =
      (BaseSelect.on_click (AoiSelect.on_left_click cfg) s e).required_clicks := by
  simp only [AoiSelect.on_click]
  split <;> rfl

lemma aoi_on_click_dst (cfg : CameraConfig) (s : SelState) (e : MouseEvent) :
    (AoiSelect.on_click cfg s e).dst =
      (BaseSelect.on_click (AoiSelect.on_left_click cfg) s e).dst := by
  simp only [AoiSelect.on_click]
  split <;> rfl

lemma aoi_on_click_button3 (cfg : CameraConfig) (s : SelState) (e : MouseEvent) :
    (AoiSelect.on_click cfg s e).button3_active =
      (BaseSelect.on_click (AoiSelect.on_left_click cfg) s e).button3_active := by
  simp only [AoiSelect.on_click]
  split <;> rfl

lemma variant_click_required (v : Variant) (s : SelState) (e : MouseEvent) :
    (v.click s e).required_clicks = s.required_clicks := by
  cases v with
  | gcp =>
    rw [Variant.click, gcp_on_click_required]
    exact on_click_required _ on_left_click_required s e
  | aoi cfg =>
    rw [Variant.click, aoi_on_click_required]
    exact on_click_required _ (aoi_left_click_required cfg) s e

lemma variant_click_dst (v : Variant) (s : SelState) (e : MouseEvent) :
    (v.click s e).dst = s.dst := by
  cases v with
  | gcp =>
    rw [Variant.click, gcp_on_click_dst]
    exact on_click_dst _ on_left_click_dst s e
  | aoi cfg =>
    rw [Variant.click, aoi_on_click_dst]
    exact on_click_dst _ (aoi_left_click_dst cfg) s e

lemma variant_click_src_cap (v : Variant) (s : SelState) (e : MouseEvent)
    (hs : s.src.length ≤ s.required_clicks) :
    (v.click s e).src.length ≤ (v.click s e).required_clicks := by
  cases v with
  | gcp =>
    rw [Variant.click, gcp_on_click_src, gcp_on_click_required]
    exact on_click_src_cap _ on_left_click_src_le on_left_click_required s e hs
  | aoi cfg =>
    rw [Variant.click, aoi_on_click_src, aoi_on_click_required]
    exact on_click_src_cap _ (aoi_left_click_src_le cfg) (aoi_left_click_required cfg) s e hs

lemma variant_click_lockstep (v : Variant) (s : SelState) (e : MouseEvent)
    (hs : s.pts_t.length = s.src.length) :
    (v.click s e).pts_t.length = (v.click s e).src.length := by
  cases v with
  | gcp =>
    rw [Variant.click, gcp_on_click_src, gcp_on_click_pts_t]
    exact on_click_lockstep _ on_left_click_lockstep s e hs
  | aoi cfg =>
    rw [Variant.click, aoi_on_click_src, aoi_on_click_pts_t]
    exact on_click_lockstep _ (aoi_left_click_lockstep cfg) s e hs

lemma variant_click_button3_iff (v : Variant) (s : SelState) (e : MouseEvent)
    (hs : s.button3_active = true ↔ s.src.length = s.required_clicks) :
    (v.click s e).button3_active = true ↔
      (v.click s e).src.length = (v.click s e).required_clicks := by
  cases v with
  | gcp =>
    rw [Variant.click, gcp_on_click_src, gcp_on_click_required, gcp_on_click_button3]
    exact on_click_button3_iff _ s e hs
  | aoi cfg =>
    rw [Variant.click, aoi_on_click_src, aoi_on_click_required, aoi_on_click_button3]
    exact on_click_button3_iff _ s e hs

lemma on_release_src (click : SelState → MouseEvent → SelState)
    (s : SelState) (e : MouseEvent) :
    (BaseSelect.on_release click s e).src =
      (if s.press = true ∧ s.move = false then click s e else s).src := rfl

lemma on_release_pts_t (click : SelState → MouseEvent → SelState)
    (s : SelState) (e : MouseEvent) :
    (BaseSelect.on_release click s e).pts_t =
      (if s.press = true ∧ s.move = false then click s e else s).pts_t := rfl

lemma on_release_required (click : SelState → MouseEvent → SelState)
    (s : SelState) (e : MouseEvent) :
    (BaseSelect.on_release click s e).required_clicks =
      (if s.press = true ∧ s.move = false then click s e else s).required_clicks := rfl

lemma on_release_dst (click : SelState → MouseEvent → SelState)
    (s : SelState) (e : MouseEvent) :
    (BaseSelect.on_release click s e).dst =
      (if s.press = true ∧ s.move = false then click s e else s).dst := rfl

lemma on_release_button3 (click : SelState → MouseEvent → SelState)
    (s : SelState) (e : MouseEvent) :
    (BaseSelect.on_release click s e).button3_active =
      (if s.press = true ∧ s.move = false then click s e else s).button3_active := rfl

lemma step_required (v : Variant) (s : SelState) (ev : SessionEvent) :
    (v.step s ev).required_clicks = s.required_clicks := by
  cases ev with
  | press e => rfl
  | move e =>
    rw [Variant.step, BaseSelect.on_move]
    split <;> rfl
  | release e =>
    rw [Variant.step, on_release_required]
    split
    · exact variant_click_required v s e
    · rfl
  | switch_cam => rfl
  | switch_geo => rfl

lemma step_dst (v : Variant) (s : SelState) (ev : SessionEvent) :
    (v.step s ev).dst = s.dst := by
  cases ev with
  | press e => rfl
  | move e =>
    rw [Variant.step, BaseSelect.on_move]
    split <;> rfl
  | release e =>
    rw [Variant.step, on_release_dst]
    split
    · exact variant_click_dst v s e
    · rfl
  | switch_cam => rfl
  | switch_geo => rfl

lemma step_src_cap (v : Variant) (s : SelState) (ev : SessionEvent)
    (hs : s.src.length ≤ s.required_clicks) :
    (v.step s ev).src.length ≤ (v.step s ev).required_clicks := by
  rw [step_required]
  cases ev with
  | press e => exact hs
  | move e =>
    rw [Variant.step, BaseSelect.on_move]
    split <;> exact hs
  | release e =>
    rw [Variant.step, on_release_src]
    split
    · rw [← variant_click_required v s e]
      exact variant_click_src_cap v s e hs
    · exact hs
  | switch_cam => exact hs
  | switch_geo => exact hs

lemma step_lockstep (v : Variant) (s : SelState) (ev : SessionEvent)
    (hs : s.pts_t.length = s.src.length) :
    (v.step s ev).pts_t.length = (v.step s ev).src.length := by
  cases ev with
  | press e => exact hs
  | move e =>
    rw [Variant.step, BaseSelect.on_move]
    split <;> exact hs
  | release e =>
    rw [Variant.step, on_release_src, on_release_pts_t]
    split
    · exact variant_click_lockstep v s e hs
    · exact hs
  | switch_cam => exact hs
  | switch_geo => exact hs

lemma step_button3_iff (v : Variant) (s : SelState) (ev : SessionEvent)
    (hs : s.button3_active = true ↔ s.src.length = s.required_clicks) :
    (v.step s ev).button3_active = true ↔
      (v.step s ev).src.length = (v.step s ev).required_clicks := by
  cases ev with
  | press e => exact hs
  | move e =>
    rw [Variant.step, BaseSelect.on_move]
    split <;> exact hs
  | release e =>
    rw [Variant.step, on_release_src, on_release_button3, on_release_required]
    split
    · exact variant_click_button3_iff v s e hs
    · exact hs
  | switch_cam => exact hs
  | switch_geo => exact hs

lemma run_src_cap (v : Variant) (evs : List SessionEvent) (s : SelState)
    (hs : s.src.length ≤ s.required_clicks) :
    (v.run s evs).src.length ≤ (v.run s evs).required_clicks := by
  induction evs generalizing s with
  | nil => exact hs
  | cons ev evs ih =>
    rw [Variant.run, List.foldl_cons]
    exact ih (v.step s ev) (step_src_cap v s ev hs)

lemma run_lockstep (v : Variant) (evs : List SessionEvent) (s : SelState)
    (hs : s.pts_t.length = s.src.length) :
    (v.run s evs).pts_t.length = (v.run s evs).src.length := by
  induction evs generalizing s with
  | nil => exact hs
  | cons ev evs ih =>
    rw [Variant.run, List.foldl_cons]
    exact ih (v.step s ev) (step_lockstep v s ev hs)

lemma run_button3_iff (v : Variant) (evs : List SessionEvent) (s : SelState)
    (hs : s.button3_active = true ↔ s.src.length = s.required_clicks) :
    (v.run s evs).button3_active = true ↔
      (v.run s evs).src.length = (v.run s evs).required_clicks := by
  induction evs generalizing s with
  | nil => exact hs
  | cons ev evs ih =>
    rw [Variant.run, List.foldl_cons]
    exact ih (v.step s ev) (step_button3_iff v s ev hs)

/-- Helper to evaluate `np_round` at a concrete rational `n / d`. -/
lemma np_round_eval (n : ℤ) (d : ℕ) (f : ℤ)
    (hf : f = n / (d : ℤ)) (q : ℚ) (hq : q = (n : ℚ) / (d : ℚ)) :
    np_round q =
      (if q - (f : ℚ) < 1/2 then f
       else if (1 : ℚ)/2 < q - (f : ℚ) then f + 1
       else if f % 2 = 0 then f else f + 1) := by
  have hfl : ⌊q⌋ = f := by
    rw [hq, Rat.floor_intCast_div_natCast, hf]
  rw [np_round]
  simp only [hfl]

example : np_round (5/2) = 2 := by
  rw [np_round_eval 5 2 2 (by decide) (5/2) (by norm_num)]
  norm_num

example : np_round (7/2) = 4 := by
  rw [np_round_eval 7 2 3 (by decide) (7/2) (by norm_num)]
  norm_num

example : np_round (-5/2) = -2 := by
  rw [np_round_eval (-5) 2 (-3) (by decide) (-5/2) (by norm_num)]
  norm_num

example : np_round (17/10) = 2 := by
  rw [np_round_eval 17 10 1 (by decide) (17/10) (by norm_num)]
  norm_num

/-! ### Claim theorems -/

/-- C2: closing the session (Done button or window close) when
`len(src) != required_clicks` raises a usage error that reports both the
required count and the actual count of supplied points, and no partial
`src` result is returned to the caller. -/
theorem C2_incomplete_close_error (s : SelState)
    (h : s.src.length ≠ s.required_clicks) :
    BaseSelect.on_close s = Except.error
      { required := s.required_clicks
        actual := s.src.length
        message := usage_error_message s.required_clicks s.src.length } := by
  rw [BaseSelect.on_close]
  simp [h]

theorem C2_incomplete_close_error_witness :
    (GcpSelect.init [[(0:ℚ), 0], [1, 1]]).src.length ≠
      (GcpSelect.init [[(0:ℚ), 0], [1, 1]]).required_clicks ∧
    BaseSelect.on_close (GcpSelect.init [[(0:ℚ), 0], [1, 1]]) = Except.error
      { required := 2, actual := 0, message := usage_error_message 2 0 } :=
  ⟨by decide, C2_incomplete_close_error _ (by decide)⟩

/-- C7: for every state, `remove_last_point` right after an accepted
`add_point(p)` restores both the `src` sequence and the annotation list
(hence the marker count) exactly to their pre-add values. -/
theorem C7_add_then_remove_roundtrip (s : SelState) (xy : ℚ × ℚ)
    (b : MouseBtn) (i : Bool) :
    (BaseSelect.on_right_click
        (BaseSelect.on_left_click s { button := b, inaxes_ax := i, xdata := Option.some xy })).src
      = s.src ∧
    (BaseSelect.on_right_click
        (BaseSelect.on_left_click s { button := b, inaxes_ax := i, xdata := Option.some xy })).pts_t
      = s.pts_t := by
  rw [on_left_click_some, BaseSelect.on_right_click]
  simp [List.dropLast_concat]

/-- C8: in any reachable session state with `src` empty, invoking
`remove_last_point` (a processed right click) leaves the whole session
state unchanged and raises no error. -/
theorem C8_empty_undo_noop (v : Variant) (dst : List (List ℚ)) (required : ℕ)
    (evs : List SessionEvent)
    (h : (v.run (BaseSelect.init dst required) evs).src = []) :
    BaseSelect.on_right_click (v.run (BaseSelect.init dst required) evs) =
      v.run (BaseSelect.init dst required) evs := by
  have hpts : (v.run (BaseSelect.init dst required) evs).pts_t.length =
      (v.run (BaseSelect.init dst required) evs).src.length :=
    run_lockstep v evs _ (by simp [BaseSelect.init])
  rw [h, List.length_nil] at hpts
  rw [BaseSelect.on_right_click]
  simp [h, hpts]

theorem C8_empty_undo_noop_witness :
    (Variant.gcp.run (BaseSelect.init [[(0:ℚ), 0]] 1) []).src = [] ∧
    BaseSelect.on_right_click (Variant.gcp.run (BaseSelect.init [[(0:ℚ), 0]] 1) []) =
      Variant.gcp.run (BaseSelect.init [[(0:ℚ), 0]] 1) [] :=
  ⟨rfl, C8_empty_undo_noop Variant.gcp [[(0:ℚ), 0]] 1 [] rfl⟩

/-- C9: switching the active view in either direction, at any point during
collection, does not alter `src`, `dst`, the annotations (marker count),
or the derived polygon patches; it changes only the view visibility. -/
theorem C9_view_switch_pure (s : SelState) :
    BaseSelect.switch_to_ax s = { s with ax_visible := true, ax_geo_visible := false } ∧
    BaseSelect.switch_to_ax_geo s = { s with ax_visible := false, ax_geo_visible := true } ∧
    (BaseSelect.switch_to_ax s).src = s.src ∧
    (BaseSelect.switch_to_ax s).dst = s.dst ∧
    (BaseSelect.switch_to_ax s).pts_t = s.pts_t ∧
    (BaseSelect.switch_to_ax s).p_bbox = s.p_bbox ∧
    (BaseSelect.switch_to_ax s).p_bbox_geo = s.p_bbox_geo ∧
    (BaseSelect.switch_to_ax s).p_geo_selected = s.p_geo_selected ∧
    (BaseSelect.switch_to_ax_geo s).src = s.src ∧
    (BaseSelect.switch_to_ax_geo s).dst = s.dst ∧
    (BaseSelect.switch_to_ax_geo s).pts_t = s.pts_t ∧
    (BaseSelect.switch_to_ax_geo s).p_bbox = s.p_bbox ∧
    (BaseSelect.switch_to_ax_geo s).p_bbox_geo = s.p_bbox_geo ∧
    (BaseSelect.switch_to_ax_geo s).p_geo_selected = s.p_geo_selected :=
  ⟨rfl, rfl, rfl, rfl, rfl, rfl, rfl, rfl, rfl, rfl, rfl, rfl, rfl, rfl⟩

/-- C10: in GCP mode, after every processed click event the destination
points highlighted as selected on the geographic view are exactly (the
first two coordinates of) the prefix of `dst` index-paired with the source
points collected so far. -/
theorem C10_selected_prefix (s : SelState) (e : MouseEvent) :
    (GcpSelect.on_click s e).p_geo_selected =
      ((GcpSelect.on_click s e).dst.take (GcpSelect.on_click s e).src.length).map
        (fun p => p.take 2) := by
  simp only [GcpSelect.on_click]
  split
  · rfl
  · rename_i hlen
    simp only [gt_iff_lt, not_lt, Nat.le_zero, List.length_eq_zero] at hlen
    simp [hlen]

lemma click_dispatch_left_at_cap (leftClick : SelState → MouseEvent → SelState)
    (s : SelState) (e : MouseEvent)
    (hb : e.button = MouseBtn.left) (hc : s.src.length = s.required_clicks) :
    BaseSelect.click_dispatch leftClick s e = s := by
  rw [BaseSelect.click_dispatch]
  simp [hb, hc]

lemma on_click_left_at_cap (leftClick : SelState → MouseEvent → SelState)
    (s : SelState) (e : MouseEvent)
    (hb : e.button = MouseBtn.left) (hc : s.src.length = s.required_clicks) :
    (BaseSelect.on_click leftClick s e).src = s.src ∧
    (BaseSelect.on_click leftClick s e).pts_t = s.pts_t := by
  rw [BaseSelect.on_click]
  split
  · rw [click_dispatch_left_at_cap leftClick s e hb hc,
      update_done_button_src, update_done_button_pts_t]
    exact ⟨rfl, rfl⟩
  · exact ⟨rfl, rfl⟩

/-- C3: a left click processed while `len(src)` already equals
`required_clicks` leaves `src` and the annotation list unchanged, and for
every sequence of session events `len(src) ≤ required_clicks` is an
invariant. -/
theorem C3_redundant_add_capped :
    (∀ (v : Variant) (s : SelState) (e : MouseEvent),
      e.button = MouseBtn.left → s.src.length = s.required_clicks →
      (v.click s e).src = s.src ∧ (v.click s e).pts_t = s.pts_t) ∧
    (∀ (v : Variant) (s : SelState) (evs : List SessionEvent),
      s.src.length ≤ s.required_clicks →
      (v.run s evs).src.length ≤ (v.run s evs).required_clicks) := by
  constructor
  · intro v s e hb hc
    cases v with
    | gcp =>
      rw [Variant.click, gcp_on_click_src, gcp_on_click_pts_t]
      exact on_click_left_at_cap _ s e hb hc
    | aoi cfg =>
      rw [Variant.click, aoi_on_click_src, aoi_on_click_pts_t]
      exact on_click_left_at_cap _ s e hb hc
  · intro v s evs hs
    exact run_src_cap v evs s hs

def c3_state : SelState :=
  { GcpSelect.init [[(0:ℚ), 0]] with
      src := [(1, 2)]
      pts_t := [{ label := "1", xy := ((1:ℚ), (2:ℚ)) }]
      p_data := [(1, 2)] }

theorem C3_redundant_add_capped_witness :
    ((MouseEvent.mk MouseBtn.left true Option.none).button = MouseBtn.left ∧
      c3_state.src.length = c3_state.required_clicks ∧
      (Variant.gcp.click c3_state (MouseEvent.mk MouseBtn.left true Option.none)).src
        = c3_state.src ∧
      (Variant.gcp.click c3_state (MouseEvent.mk MouseBtn.left true Option.none)).pts_t
        = c3_state.pts_t) ∧
    (c3_state.src.length ≤ c3_state.required_clicks ∧
      (Variant.gcp.run c3_state []).src.length ≤
        (Variant.gcp.run c3_state []).required_clicks) := by
  refine ⟨⟨rfl, by decide, ?_, ?_⟩, by decide, ?_⟩
  · exact (C3_redundant_add_capped.1 Variant.gcp c3_state _ rfl (by decide)).1
  · exact (C3_redundant_add_capped.1 Variant.gcp c3_state _ rfl (by decide)).2
  · exact C3_redundant_add_capped.2 Variant.gcp c3_state [] (by decide)

/-- C5: for any session started with `required_clicks ≥ 1`, the Done
control starts disabled and, after any sequence of session events, it is
enabled if and only if `len(src) == required_clicks` (the Ready state);
in particular an undo dropping the count below `required_clicks`
re-disables it. -/
theorem C5_done_button_iff (v : Variant) (dst : List (List ℚ)) (required : ℕ)
    (hN : 1 ≤ required) (evs : List SessionEvent) :
    (BaseSelect.init dst required).button3_active = false ∧
    ((v.run (BaseSelect.init dst required) evs).button3_active = true ↔
      (v.run (BaseSelect.init dst required) evs).src.length =
        (v.run (BaseSelect.init dst required) evs).required_clicks) := by
  refine ⟨rfl, run_button3_iff v evs _ ?_⟩
  simp only [BaseSelect.init, List.length_nil]
  constructor
  · intro h
    exact absurd h (by simp)
  · intro h
    omega

theorem C5_done_button_iff_witness :
    1 ≤ 1 ∧
    (BaseSelect.init [[(0:ℚ), 0]] 1).button3_active = false ∧
    ((Variant.gcp.run (BaseSelect.init [[(0:ℚ), 0]] 1) []).button3_active = true ↔
      (Variant.gcp.run (BaseSelect.init [[(0:ℚ), 0]] 1) []).src.length =
        (Variant.gcp.run (BaseSelect.init [[(0:ℚ), 0]] 1) []).required_clicks) :=
  ⟨by decide, C5_done_button_iff Variant.gcp [[(0:ℚ), 0]] 1 (by decide) []⟩

lemma update_done_button_ax_visible (s2 : SelState) :
    (BaseSelect.update_done_button s2).ax_visible = s2.ax_visible := by
  rw [BaseSelect.update_done_button]; split <;> rfl

lemma gcp_on_click_ax_visible (s : SelState) (e : MouseEvent) :
    (GcpSelect.on_click s e).ax_visible =
      (BaseSelect.on_click BaseSelect.on_left_click s e).ax_visible := by
  simp only [GcpSelect.on_click]
  split <;> rfl

lemma click_dispatch_left_accepted (leftClick : SelState → MouseEvent → SelState)
    (s : SelState) (e : MouseEvent)
    (hb : e.button = MouseBtn.left) (hlt : s.src.length < s.required_clicks) :
    BaseSelect.click_dispatch leftClick s e = leftClick s e := by
  rw [BaseSelect.click_dispatch]
  simp [hb, hlt]

lemma gcp_accepted_left_click (s : SelState) (xy : ℚ × ℚ)
    (hvis : s.ax_visible = true) (hlt : s.src.length < s.required_clicks) :
    (GcpSelect.on_click s
        { button := MouseBtn.left, inaxes_ax := true, xdata := Option.some xy }).src
      = s.src ++ [(np_round xy.1, np_round xy.2)] ∧
    (GcpSelect.on_click s
        { button := MouseBtn.left, inaxes_ax := true, xdata := Option.some xy }).ax_visible
      = true ∧
    (GcpSelect.on_click s
        { button := MouseBtn.left, inaxes_ax := true, xdata := Option.some xy }).required_clicks
      = s.required_clicks := by
  rw [gcp_on_click_src, gcp_on_click_ax_visible, gcp_on_click_required,
    BaseSelect.on_click, if_pos ⟨hvis, rfl⟩,
    click_dispatch_left_accepted _ s _ rfl hlt, on_left_click_some,
    update_done_button_src, update_done_button_ax_visible, update_done_button_required]
  exact ⟨rfl, hvis, rfl⟩

lemma gcp_fold_left_clicks (pts : List (ℚ × ℚ)) (s : SelState)
    (hvis : s.ax_visible = true)
    (hle : s.src.length + pts.length ≤ s.required_clicks) :
    (pts.foldl (fun t xy => GcpSelect.on_click t
        { button := MouseBtn.left, inaxes_ax := true, xdata := Option.some xy }) s).src
      = s.src ++ pts.map (fun xy => (np_round xy.1, np_round xy.2)) ∧
    (pts.foldl (fun t xy => GcpSelect.on_click t
        { button := MouseBtn.left, inaxes_ax := true, xdata := Option.some xy }) s).ax_visible
      = true ∧
    (pts.foldl (fun t xy => GcpSelect.on_click t
        { button := MouseBtn.left, inaxes_ax := true, xdata := Option.some xy }) s).required_clicks
      = s.required_clicks := by
  induction pts generalizing s with
  | nil => simpa using hvis
  | cons p ps ih =>
    simp only [List.foldl_cons, List.map_cons]
    have hlt : s.src.length < s.required_clicks := by
      simp only [List.length_cons] at hle
      omega
    obtain ⟨h1, h2, h3⟩ := gcp_accepted_left_click s p hvis hlt
    obtain ⟨g1, g2, g3⟩ := ih _ h2 (by
      rw [h1, h3]
      simp only [List.length_append, List.length_cons, List.length_nil] at hle ⊢
      omega)
    refine ⟨?_, g2, by rw [g3, h3]⟩
    rw [g1, h1]
    simp

/-- C1: for a session with `required_clicks = N ≥ 1`, after exactly N
accepted `add_point` calls (left clicks inside the visible image view) and
no removals, the session is Ready (`len(src) == required_clicks`), closing
succeeds, and `src` holds the N clicks in order, each rounded to the
nearest integer pixel `(col, row)`. -/
theorem C1_n_clicks_ready (dst : List (List ℚ)) (pts : List (ℚ × ℚ))
    (hN : 1 ≤ dst.length) (hlen : pts.length = dst.length) :
    (pts.foldl (fun t xy => GcpSelect.on_click t
        { button := MouseBtn.left, inaxes_ax := true, xdata := Option.some xy })
        (GcpSelect.init dst)).src
      = pts.map (fun xy => (np_round xy.1, np_round xy.2)) ∧
    (pts.foldl (fun t xy => GcpSelect.on_click t
        { button := MouseBtn.left, inaxes_ax := true, xdata := Option.some xy })
        (GcpSelect.init dst)).src.length
      = (pts.foldl (fun t xy => GcpSelect.on_click t
          { button := MouseBtn.left, inaxes_ax := true, xdata := Option.some xy })
          (GcpSelect.init dst)).required_clicks ∧
    BaseSelect.on_close (pts.foldl (fun t xy => GcpSelect.on_click t
        { button := MouseBtn.left, inaxes_ax := true, xdata := Option.some xy })
        (GcpSelect.init dst))
      = Except.ok (pts.foldl (fun t xy => GcpSelect.on_click t
          { button := MouseBtn.left, inaxes_ax := true, xdata := Option.some xy })
          (GcpSelect.init dst)).src := by
  obtain ⟨h1, _h2, h3⟩ := gcp_fold_left_clicks pts (GcpSelect.init dst) rfl
    (by simpa [GcpSelect.init, BaseSelect.init] using le_of_eq hlen)
  have hfin : (pts.foldl (fun t xy => GcpSelect.on_click t
      { button := MouseBtn.left, inaxes_ax := true, xdata := Option.some xy })
      (GcpSelect.init dst)).src.length
      = (pts.foldl (fun t xy => GcpSelect.on_click t
        { button := MouseBtn.left, inaxes_ax := true, xdata := Option.some xy })
        (GcpSelect.init dst)).required_clicks := by
    rw [h1, h3]
    simp [GcpSelect.init, BaseSelect.init, hlen]
  refine ⟨by simpa using h1, hfin, ?_⟩
  rw [BaseSelect.on_close, if_pos hfin]

theorem C1_n_clicks_ready_witness :
    ([((1:ℚ)/2, (3:ℚ)/2), ((2:ℚ), (3:ℚ))].foldl (fun t xy => GcpSelect.on_click t
        { button := MouseBtn.left, inaxes_ax := true, xdata := Option.some xy })
        (GcpSelect.init [[(0:ℚ), 0], [1, 1]])).src
      = [((1:ℚ)/2, (3:ℚ)/2), ((2:ℚ), (3:ℚ))].map (fun xy => (np_round xy.1, np_round xy.2)) ∧
    ([((1:ℚ)/2, (3:ℚ)/2), ((2:ℚ), (3:ℚ))].foldl (fun t xy => GcpSelect.on_click t
        { button := MouseBtn.left, inaxes_ax := true, xdata := Option.some xy })
        (GcpSelect.init [[(0:ℚ), 0], [1, 1]])).src.length
      = ([((1:ℚ)/2, (3:ℚ)/2), ((2:ℚ), (3:ℚ))].foldl (fun t xy => GcpSelect.on_click t
          { button := MouseBtn.left, inaxes_ax := true, xdata := Option.some xy })
          (GcpSelect.init [[(0:ℚ), 0], [1, 1]])).required_clicks ∧
    BaseSelect.on_close ([((1:ℚ)/2, (3:ℚ)/2), ((2:ℚ), (3:ℚ))].foldl
        (fun t xy => GcpSelect.on_click t
          { button := MouseBtn.left, inaxes_ax := true, xdata := Option.some xy })
        (GcpSelect.init [[(0:ℚ), 0], [1, 1]]))
      = Except.ok ([((1:ℚ)/2, (3:ℚ)/2), ((2:ℚ), (3:ℚ))].foldl
          (fun t xy => GcpSelect.on_click t
            { button := MouseBtn.left, inaxes_ax := true, xdata := Option.some xy })
          (GcpSelect.init [[(0:ℚ), 0], [1, 1]])).src :=
  C1_n_clicks_ready [[(0:ℚ), 0], [1, 1]] [((1:ℚ)/2, (3:ℚ)/2), ((2:ℚ), (3:ℚ))]
    (by decide) (by decide)

/-- A session state on the map view with one collected point and a pending
press: used to exercise a right press-release outside the image view. -/
def c4_state : SelState :=
  { BaseSelect.init [[(0:ℚ), 0]] 1 with
      src := [(5, 5)]
      pts_t := [{ label := "1", xy := ((5:ℚ), (5:ℚ)) }]
      p_data := [(5, 5)]
      press := true
      move := false
      ax_visible := false
      ax_geo_visible := true }

/-- C4 counterexample: in a session state where the geographic view is
active (image axes invisible) and the pointer is outside the image axes, a
secondary-button press-then-release leaves `src` untouched, although
`remove_last_point` would have emptied it — so the dispatch is not
unconditional. -/
theorem C4_counterexample :
    c4_state.press = true ∧ c4_state.move = false ∧
    (BaseSelect.on_release Variant.gcp.click c4_state
        { button := MouseBtn.right, inaxes_ax := false, xdata := Option.none }).src
      = [(5, 5)] ∧
    (BaseSelect.on_right_click c4_state).src = [] := by
  refine ⟨rfl, rfl, ?_, ?_⟩ <;> decide

/-- C4 (amended): a secondary-button press-then-release invokes
`remove_last_point` in every session state (any point count), but only
when the image view is visible and the event is inside its axes;
otherwise it leaves `src` and the annotations unchanged. -/
theorem C4_right_release_in_view (v : Variant) (s : SelState) (e : MouseEvent)
    (hp : s.press = true) (hm : s.move = false) (hb : e.button = MouseBtn.right) :
    ((s.ax_visible = true ∧ e.inaxes_ax = true) →
      (BaseSelect.on_release v.click s e).src = (BaseSelect.on_right_click s).src ∧
      (BaseSelect.on_release v.click s e).pts_t = (BaseSelect.on_right_click s).pts_t) ∧
    (¬(s.ax_visible = true ∧ e.inaxes_ax = true) →
      (BaseSelect.on_release v.click s e).src = s.src ∧
      (BaseSelect.on_release v.click s e).pts_t = s.pts_t) := by
  constructor
  · intro hg
    rw [on_release_src, on_release_pts_t, if_pos ⟨hp, hm⟩]
    cases v with
    | gcp =>
      rw [Variant.click, gcp_on_click_src, gcp_on_click_pts_t, BaseSelect.on_click,
        if_pos hg, update_done_button_src, update_done_button_pts_t,
        BaseSelect.click_dispatch, if_pos hb]
      exact ⟨rfl, rfl⟩
    | aoi cfg =>
      rw [Variant.click, aoi_on_click_src, aoi_on_click_pts_t, BaseSelect.on_click,
        if_pos hg, update_done_button_src, update_done_button_pts_t,
        BaseSelect.click_dispatch, if_pos hb]
      exact ⟨rfl, rfl⟩
  · intro hg
    rw [on_release_src, on_release_pts_t, if_pos ⟨hp, hm⟩]
    cases v with
    | gcp =>
      rw [Variant.click, gcp_on_click_src, gcp_on_click_pts_t, BaseSelect.on_click,
        if_neg hg]
      exact ⟨rfl, rfl⟩
    | aoi cfg =>
      rw [Variant.click, aoi_on_click_src, aoi_on_click_pts_t, BaseSelect.on_click,
        if_neg hg]
      exact ⟨rfl, rfl⟩

/-- A session state on the image view with one collected point and a
pending press: used to exercise the amended right-click dispatch. -/
def c4_state_in_view : SelState :=
  { BaseSelect.init [[(0:ℚ), 0]] 1 with
      src := [(5, 5)]
      pts_t := [{ label := "1", xy := ((5:ℚ), (5:ℚ)) }]
      p_data := [(5, 5)]
      press := true
      move := false }

theorem C4_right_release_in_view_witness :
    c4_state_in_view.press = true ∧ c4_state_in_view.move = false ∧
    ((c4_state_in_view.ax_visible = true ∧
        (MouseEvent.mk MouseBtn.right true Option.none).inaxes_ax = true) →
      (BaseSelect.on_release Variant.gcp.click c4_state_in_view
          (MouseEvent.mk MouseBtn.right true Option.none)).src
        = (BaseSelect.on_right_click c4_state_in_view).src ∧
      (BaseSelect.on_release Variant.gcp.click c4_state_in_view
          (MouseEvent.mk MouseBtn.right true Option.none)).pts_t
        = (BaseSelect.on_right_click c4_state_in_view).pts_t) :=
  ⟨rfl, rfl,
    (C4_right_release_in_view Variant.gcp c4_state_in_view
      (MouseEvent.mk MouseBtn.right true Option.none) rfl rfl rfl).1⟩

lemma update_done_button_p_bbox (s2 : SelState) :
    (BaseSelect.update_done_button s2).p_bbox = s2.p_bbox := by
  rw [BaseSelect.update_done_button]; split <;> rfl

lemma update_done_button_p_bbox_geo (s2 : SelState) :
    (BaseSelect.update_done_button s2).p_bbox_geo = s2.p_bbox_geo := by
  rw [BaseSelect.update_done_button]; split <;> rfl

lemma aoi_on_click_ax_visible (cfg : CameraConfig) (s : SelState) (e : MouseEvent) :
    (AoiSelect.on_click cfg s e).ax_visible =
      (BaseSelect.on_click (AoiSelect.on_left_click cfg) s e).ax_visible := by
  simp only [AoiSelect.on_click]
  split <;> rfl

lemma aoi_left_click_some (cfg : CameraConfig) (s : SelState) (b : MouseBtn)
    (i : Bool) (xy : ℚ × ℚ) :
    AoiSelect.on_left_click cfg s { button := b, inaxes_ax := i, xdata := Option.some xy } =
      (if (s.src ++ [(np_round xy.1, np_round xy.2)]).length = s.required_clicks then
        { s with
            src := s.src ++ [(np_round xy.1, np_round xy.2)]
            p_data := s.src ++ [(np_round xy.1, np_round xy.2)]
            pts_t := s.pts_t ++ [Marker.mk (corner_labels.getD ((s.src ++ [(np_round xy.1, np_round xy.2)]).length - 1) "") xy]
            p_bbox := cfg.bbox_cam (s.src ++ [(np_round xy.1, np_round xy.2)])
            p_bbox_geo :=
              if cfg.has_crs = true then
                cfg.xyz_transform (cfg.bbox_geo (s.src ++ [(np_round xy.1, np_round xy.2)]))
              else cfg.bbox_geo (s.src ++ [(np_round xy.1, np_round xy.2)]) }
      else
        { s with
            src := s.src ++ [(np_round xy.1, np_round xy.2)]
            p_data := s.src ++ [(np_round xy.1, np_round xy.2)]
            pts_t := s.pts_t ++ [Marker.mk (corner_labels.getD ((s.src ++ [(np_round xy.1, np_round xy.2)]).length - 1) "") xy] }) :=
  rfl

lemma aoi_left_click_some_src (cfg : CameraConfig) (s : SelState) (b : MouseBtn)
    (i : Bool) (xy : ℚ × ℚ) :
    (AoiSelect.on_left_click cfg s { button := b, inaxes_ax := i, xdata := Option.some xy }).src
      = s.src ++ [(np_round xy.1, np_round xy.2)] := by
  rw [aoi_left_click_some]; split <;> rfl

lemma aoi_left_click_some_pts_t (cfg : CameraConfig) (s : SelState) (b : MouseBtn)
    (i : Bool) (xy : ℚ × ℚ) :
    (AoiSelect.on_left_click cfg s { button := b, inaxes_ax := i, xdata := Option.some xy }).pts_t
      = s.pts_t ++ [Marker.mk (corner_labels.getD
          ((s.src ++ [(np_round xy.1, np_round xy.2)]).length - 1) "") xy] := by
  rw [aoi_left_click_some]; split <;> rfl

lemma aoi_left_click_some_ax_visible (cfg : CameraConfig) (s : SelState) (b : MouseBtn)
    (i : Bool) (xy : ℚ × ℚ) :
    (AoiSelect.on_left_click cfg s { button := b, inaxes_ax := i, xdata := Option.some xy }).ax_visible
      = s.ax_visible := by
  rw [aoi_left_click_some]; split <;> rfl

lemma aoi_left_click_some_required (cfg : CameraConfig) (s : SelState) (b : MouseBtn)
    (i : Bool) (xy : ℚ × ℚ) :
    (AoiSelect.on_left_click cfg s { button := b, inaxes_ax := i, xdata := Option.some xy }).required_clicks
      = s.required_clicks := by
  rw [aoi_left_click_some]; split <;> rfl

lemma aoi_left_click_some_p_bbox_full (cfg : CameraConfig) (s : SelState) (b : MouseBtn)
    (i : Bool) (xy : ℚ × ℚ)
    (hC : (s.src ++ [(np_round xy.1, np_round xy.2)]).length = s.required_clicks) :
    (AoiSelect.on_left_click cfg s { button := b, inaxes_ax := i, xdata := Option.some xy }).p_bbox
      = cfg.bbox_cam (s.src ++ [(np_round xy.1, np_round xy.2)]) ∧
    (AoiSelect.on_left_click cfg s { button := b, inaxes_ax := i, xdata := Option.some xy }).p_bbox_geo
      = (if cfg.has_crs = true then
          cfg.xyz_transform (cfg.bbox_geo (s.src ++ [(np_round xy.1, np_round xy.2)]))
        else cfg.bbox_geo (s.src ++ [(np_round xy.1, np_round xy.2)])) := by
  rw [aoi_left_click_some, if_pos hC]
  exact ⟨rfl, rfl⟩

lemma aoi_on_click_p_bbox_of_full (cfg : CameraConfig) (s : SelState) (e : MouseEvent)
    (h : (BaseSelect.on_click (AoiSelect.on_left_click cfg) s e).src.length =
      (BaseSelect.on_click (AoiSelect.on_left_click cfg) s e).required_clicks) :
    (AoiSelect.on_click cfg s e).p_bbox =
      (BaseSelect.on_click (AoiSelect.on_left_click cfg) s e).p_bbox ∧
    (AoiSelect.on_click cfg s e).p_bbox_geo =
      (BaseSelect.on_click (AoiSelect.on_left_click cfg) s e).p_bbox_geo := by
  simp only [AoiSelect.on_click]
  rw [if_neg (not_not_intro h)]
  exact ⟨rfl, rfl⟩

lemma aoi_accepted_left_click (cfg : CameraConfig) (s : SelState) (xy : ℚ × ℚ)
    (hvis : s.ax_visible = true) (hlt : s.src.length < s.required_clicks) :
    (AoiSelect.on_click cfg s
        { button := MouseBtn.left, inaxes_ax := true, xdata := Option.some xy }).src
      = s.src ++ [(np_round xy.1, np_round xy.2)] ∧
    (AoiSelect.on_click cfg s
        { button := MouseBtn.left, inaxes_ax := true, xdata := Option.some xy }).pts_t
      = s.pts_t ++ [Marker.mk (corner_labels.getD s.src.length "") xy] ∧
    (AoiSelect.on_click cfg s
        { button := MouseBtn.left, inaxes_ax := true, xdata := Option.some xy }).ax_visible
      = true ∧
    (AoiSelect.on_click cfg s
        { button := MouseBtn.left, inaxes_ax := true, xdata := Option.some xy }).required_clicks
      = s.required_clicks ∧
    (s.src.length + 1 = s.required_clicks →
      (AoiSelect.on_click cfg s
          { button := MouseBtn.left, inaxes_ax := true, xdata := Option.some xy }).p_bbox
        = cfg.bbox_cam (s.src ++ [(np_round xy.1, np_round xy.2)]) ∧
      (AoiSelect.on_click cfg s
          { button := MouseBtn.left, inaxes_ax := true, xdata := Option.some xy }).p_bbox_geo
        = (if cfg.has_crs = true then
            cfg.xyz_transform (cfg.bbox_geo (s.src ++ [(np_round xy.1, np_round xy.2)]))
          else cfg.bbox_geo (s.src ++ [(np_round xy.1, np_round xy.2)]))) := by
  have hb : BaseSelect.on_click (AoiSelect.on_left_click cfg) s
      { button := MouseBtn.left, inaxes_ax := true, xdata := Option.some xy }
      = BaseSelect.update_done_button (AoiSelect.on_left_click cfg s
          { button := MouseBtn.left, inaxes_ax := true, xdata := Option.some xy }) := by
    rw [BaseSelect.on_click, if_pos ⟨hvis, rfl⟩,
      click_dispatch_left_accepted _ s _ rfl hlt]
  have hsrc2 : (s.src ++ [(np_round xy.1, np_round xy.2)]).length = s.src.length + 1 := by
    simp
  have hsrcp : (BaseSelect.on_click (AoiSelect.on_left_click cfg) s
      { button := MouseBtn.left, inaxes_ax := true, xdata := Option.some xy }).src
      = s.src ++ [(np_round xy.1, np_round xy.2)] := by
    rw [hb, update_done_button_src, aoi_left_click_some_src]
  have hreqp : (BaseSelect.on_click (AoiSelect.on_left_click cfg) s
      { button := MouseBtn.left, inaxes_ax := true, xdata := Option.some xy }).required_clicks
      = s.required_clicks := by
    rw [hb, update_done_button_required, aoi_left_click_some_required]
  have hptsp : (BaseSelect.on_click (AoiSelect.on_left_click cfg) s
      { button := MouseBtn.left, inaxes_ax := true, xdata := Option.some xy }).pts_t
      = s.pts_t ++ [Marker.mk (corner_labels.getD
          ((s.src ++ [(np_round xy.1, np_round xy.2)]).length - 1) "") xy] := by
    rw [hb, update_done_button_pts_t, aoi_left_click_some_pts_t]
  have haxp : (BaseSelect.on_click (AoiSelect.on_left_click cfg) s
      { button := MouseBtn.left, inaxes_ax := true, xdata := Option.some xy }).ax_visible
      = s.ax_visible := by
    rw [hb, update_done_button_ax_visible, aoi_left_click_some_ax_visible]
  refine ⟨?_, ?_, ?_, ?_, ?_⟩
  · rw [aoi_on_click_src, hsrcp]
  · rw [aoi_on_click_pts_t, hptsp, hsrc2]
    simp
  · rw [aoi_on_click_ax_visible, haxp]
    exact hvis
  · rw [aoi_on_click_required, hreqp]
  · intro hc
    have hfull : (BaseSelect.on_click (AoiSelect.on_left_click cfg) s
        { button := MouseBtn.left, inaxes_ax := true, xdata := Option.some xy }).src.length
        = (BaseSelect.on_click (AoiSelect.on_left_click cfg) s
          { button := MouseBtn.left, inaxes_ax := true, xdata := Option.some xy }).required_clicks := by
      rw [hsrcp, hreqp, hsrc2]
      exact hc
    have hC : (s.src ++ [(np_round xy.1, np_round xy.2)]).length = s.required_clicks := by
      rw [hsrc2]
      exact hc
    obtain ⟨hp1, hp2⟩ := aoi_on_click_p_bbox_of_full cfg s _ hfull
    constructor
    · rw [hp1, hb, update_done_button_p_bbox,
        (aoi_left_click_some_p_bbox_full cfg s _ _ xy hC).1]
    · rw [hp2, hb, update_done_button_p_bbox_geo,
        (aoi_left_click_some_p_bbox_full cfg s _ _ xy hC).2]

/-- C6: in area-of-interest mode, when the 4th point is accepted the
bounding polygon is derived from the four source corners in click order —
the four clicks labelled upstream-left, downstream-left, downstream-right,
upstream-right — and set on both views (the geo view reprojected when a
CRS is present); and any click event that leaves `len(src)` below 4 clears
both polygon patches back to empty. -/
theorem C6_aoi_bbox (cfg : CameraConfig) :
    (∀ (dst : List (List ℚ)) (p1 p2 p3 p4 : ℚ × ℚ),
      ([p1, p2, p3, p4].foldl (fun t xy => AoiSelect.on_click cfg t
          { button := MouseBtn.left, inaxes_ax := true, xdata := Option.some xy })
          (AoiSelect.init dst)).src
        = [p1, p2, p3, p4].map (fun xy => (np_round xy.1, np_round xy.2)) ∧
      ([p1, p2, p3, p4].foldl (fun t xy => AoiSelect.on_click cfg t
          { button := MouseBtn.left, inaxes_ax := true, xdata := Option.some xy })
          (AoiSelect.init dst)).pts_t.map Marker.label
        = corner_labels ∧
      ([p1, p2, p3, p4].foldl (fun t xy => AoiSelect.on_click cfg t
          { button := MouseBtn.left, inaxes_ax := true, xdata := Option.some xy })
          (AoiSelect.init dst)).p_bbox
        = cfg.bbox_cam ([p1, p2, p3, p4].map (fun xy => (np_round xy.1, np_round xy.2))) ∧
      ([p1, p2, p3, p4].foldl (fun t xy => AoiSelect.on_click cfg t
          { button := MouseBtn.left, inaxes_ax := true, xdata := Option.some xy })
          (AoiSelect.init dst)).p_bbox_geo
        = (if cfg.has_crs = true then
            cfg.xyz_transform (cfg.bbox_geo
              ([p1, p2, p3, p4].map (fun xy => (np_round xy.1, np_round xy.2))))
          else cfg.bbox_geo
            ([p1, p2, p3, p4].map (fun xy => (np_round xy.1, np_round xy.2))))) ∧
    (∀ (s : SelState) (e : MouseEvent),
      s.required_clicks = 4 →
      (AoiSelect.on_click cfg s e).src.length < 4 →
      (AoiSelect.on_click cfg s e).p_bbox = [] ∧
      (AoiSelect.on_click cfg s e).p_bbox_geo = []) := by
  constructor
  · intro dst p1 p2 p3 p4
    simp only [List.foldl_cons, List.foldl_nil]
    have i_src : (AoiSelect.init dst).src = [] := rfl
    have i_len : (AoiSelect.init dst).src.length = 0 := rfl
    have i_pts : (AoiSelect.init dst).pts_t = [] := rfl
    have i_req : (AoiSelect.init dst).required_clicks = 4 := rfl
    obtain ⟨a1, a2, a3, a4, -⟩ := aoi_accepted_left_click cfg (AoiSelect.init dst) p1 rfl
      (by rw [i_len, i_req]; decide)
    rw [i_src, List.nil_append] at a1
    rw [i_pts, i_len, List.nil_append] at a2
    rw [i_req] at a4
    obtain ⟨b1, b2, b3, b4, -⟩ := aoi_accepted_left_click cfg _ p2 a3
      (by rw [a1, a4]; simp)
    rw [a1] at b1 b2
    rw [a4] at b4
    simp only [List.singleton_append, List.length_singleton] at b1 b2
    obtain ⟨c1, c2, c3, c4, -⟩ := aoi_accepted_left_click cfg _ p3 b3
      (by rw [b1, b4]; simp)
    rw [b1] at c1 c2
    rw [b4] at c4
    simp only [List.cons_append, List.singleton_append, List.length_cons,
      List.length_singleton] at c1 c2
    obtain ⟨d1, d2, d3, d4, d5⟩ := aoi_accepted_left_click cfg _ p4 c3
      (by rw [c1, c4]; simp)
    obtain ⟨d6, d7⟩ := d5 (by rw [c1, c4]; simp)
    rw [c1] at d1 d2 d6 d7
    rw [c4] at d4
    simp only [List.cons_append, List.singleton_append, List.length_cons,
      List.length_singleton] at d1 d2
    refine ⟨?_, ?_, ?_, ?_⟩
    · rw [d1]
      simp
    · rw [d2, c2, b2, a2]
      simp [corner_labels]
    · rw [d6]
      simp
    · rw [d7]
      simp
  · intro s e hreq hlt
    have hbreq : (BaseSelect.on_click (AoiSelect.on_left_click cfg) s e).required_clicks = 4 :=
      (on_click_required _ (aoi_left_click_required cfg) s e).trans hreq
    simp only [AoiSelect.on_click] at hlt ⊢
    split at hlt
    · rename_i hcond
      rw [if_pos hcond]
      exact ⟨rfl, rfl⟩
    · rename_i hcond
      rw [not_not] at hcond
      exfalso
      rw [hcond, hbreq] at hlt
      exact lt_irrefl 4 hlt

/-- A concrete `camera_config` collaborator used to instantiate C6. -/
def c6_cfg : CameraConfig :=
  { has_crs := true
    bbox_cam := fun c => c.map (fun p => ((p.1 : ℚ), (p.2 : ℚ)))
    bbox_geo := fun c => c.map (fun p => ((p.1 : ℚ), (p.2 : ℚ)))
    xyz_transform := fun l => l }

/-- A fresh area-of-interest session used to instantiate C6. -/
def c6_state : SelState := AoiSelect.init [[(0:ℚ), 0]]

theorem C6_aoi_bbox_witness :
    c6_state.required_clicks = 4 ∧
    (AoiSelect.on_click c6_cfg c6_state
        { button := MouseBtn.right, inaxes_ax := false, xdata := Option.none }).src.length < 4 ∧
    ((AoiSelect.on_click c6_cfg c6_state
        { button := MouseBtn.right, inaxes_ax := false, xdata := Option.none }).p_bbox = [] ∧
      (AoiSelect.on_click c6_cfg c6_state
        { button := MouseBtn.right, inaxes_ax := false, xdata := Option.none }).p_bbox_geo = []) :=
  ⟨rfl, by decide, (C6_aoi_bbox c6_cfg).2 c6_state _ rfl (by decide)⟩
